import Mathlib

/-
Shallow embedding of the command dispatch and task sequencing pipeline of the
with-robot repository.

Client side (src/agent/src/runner/executor.py): TaskExecutor fetches an
environment snapshot once at construction, flattens task groups, validates
each task target against the snapshot, builds a per-skill command string and
posts it to the send_action endpoint.

Server side (src/robot/llm_main.py): receive_action validates incoming
envelopes by key presence and enqueues them; process_actions is the single
dispatch worker draining the queue.  A labelled transition system models the
queue together with the single worker thread started in main.
-/

namespace WithRobot

/-- Object stored in the environment snapshot.  The field pos is the textual
form of the position value, exactly as Python f-string interpolation of
target["pos"] would render it. -/
structure Obj where
  pos : String
deriving DecidableEq

/-- A task as produced by the planner: executor.py reads task["skill"] and
task["target"]. -/
structure Task where
  skill : String
  target : String
deriving DecidableEq

/-- A task group: executor.py, _make_task_sequence reads both
task_output["subgoal"] and task_output["tasks"] (lines 20-21). -/
structure TaskGroup where
  subgoal : String
  tasks : List Task
deriving DecidableEq

/-- A task result: task.copy() with the key "result" added
(executor.py lines 103-104). -/
structure TaskResult where
  skill : String
  target : String
  result : String
deriving DecidableEq

/-- The value stored in self.object_map (executor.py line 13):
response.json().get("objects", []) is either the objects mapping from the
environment endpoint or the Python list default []. -/
inductive ObjectMap where
  | pydict : List (String × Obj) → ObjectMap
  | pylist : List Obj → ObjectMap
deriving DecidableEq

/-- Python exceptions raised by the executor. -/
inductive ExecError where
  | keyError : String → ExecError
  | valueError : String → ExecError
  | attributeError : String → ExecError
  | typeError : String → ExecError
deriving DecidableEq

/-- The innermost payload dict of an action envelope; code? models presence
of the "code" key (read with .get in llm_main.py line 63). -/
structure Payload where
  code? : Option String
deriving DecidableEq

/-- The inner action dict; the Option fields model presence of the "type"
and "payload" keys checked at llm_main.py line 129. -/
structure ActionInner where
  type? : Option String
  payload? : Option Payload
deriving DecidableEq

/-- A request body posted to the send_action endpoint; action? models
presence of the "action" key. -/
structure ActionReq where
  action? : Option ActionInner
deriving DecidableEq

/-- The well-formed envelope the client builds (executor.py lines 29-39):
an action of type run_code whose payload carries a code string. -/
def clientAction (code : String) : ActionReq :=
  ActionReq.mk (some (ActionInner.mk (some "run_code") (some (Payload.mk (some code)))))

/-- One HTTP POST observed at the network boundary. -/
structure Submission where
  url : String
  body : ActionReq
deriving DecidableEq

/-- requests.post(url + "/send_action", json=payload): appends one submission
to the network trace. -/
def sendAction (url : String) (code : String) (net : List Submission) : List Submission :=
  net ++ [Submission.mk (url ++ "/send_action") (clientAction code)]

/-- The command string built in _go_to_object (executor.py lines 33-36). -/
def go_to_code (pos : String) : String :=
  "\npath = plan_mobile_path(" ++ pos ++ ")\nresult = follow_mobile_path(path)\n"

/-- The command string built in _pick_object (executor.py lines 50-52). -/
def pick_code (pos : String) : String :=
  "\nresult = pick_object(" ++ pos ++ ", 0.1, 0.2)\n"

/-- The command string built in _place_object (executor.py lines 66-68). -/
def place_code (pos : String) : String :=
  "\nresult = place_object(" ++ pos ++ ", 0.1, 0.2)\n"

/-- _go_to_object (executor.py lines 27-42): builds the payload and itself
posts it to the send_action endpoint. -/
def go_to_object (url : String) (target : Obj) (net : List Submission) : List Submission :=
  sendAction url (go_to_code target.pos) net

/-- _pick_object (executor.py lines 44-58). -/
def pick_object (url : String) (target : Obj) (net : List Submission) : List Submission :=
  sendAction url (pick_code target.pos) net

/-- _place_object (executor.py lines 60-74). -/
def place_object (url : String) (target : Obj) (net : List Submission) : List Submission :=
  sendAction url (place_code target.pos) net

/-- The pure mapping from (skill, position) to command string implicit in the
if/elif dispatch of execute (executor.py lines 95-100).  For unsupported
skills the value is irrelevant (dispatch raises first). -/
def taskCode (skill : String) (pos : String) : String :=
  if skill == "GoToObject" then go_to_code pos
  else if skill == "PickObject" then pick_code pos
  else place_code pos

/-- The if/elif skill dispatch of execute (executor.py lines 95-102).
Each branch calls the corresponding handler, which performs one submission;
an unrecognized skill raises ValueError. -/
def dispatchSkill (url : String) (skill : String) (target : Obj) (net : List Submission) :
    Except ExecError (List Submission) :=
  if skill == "GoToObject" then Except.ok (go_to_object url target net)
  else if skill == "PickObject" then Except.ok (pick_object url target net)
  else if skill == "PlaceObject" then Except.ok (place_object url target net)
  else Except.error (ExecError.valueError ("Unknown skill: " ++ skill))

/-- Python membership test target_name in self.object_map (executor.py
line 87).  On the dict it tests key membership; on a list of objects a
string compares unequal to every element, so membership is always false. -/
def memObjectMap (target_name : String) : ObjectMap → Bool
  | ObjectMap.pydict m => m.any (fun p => p.1 == target_name)
  | ObjectMap.pylist _ => false

/-- Python indexing self.object_map[target_name] (executor.py line 93);
indexing a list with a string would raise, modelled as none. -/
def getItem (om : ObjectMap) (key : String) : Option Obj :=
  match om with
  | ObjectMap.pydict m => (m.find? (fun p => p.1 == key)).map Prod.snd
  | ObjectMap.pylist _ => none

/-- Total version of getItem used only to state trace equalities; on valid
tasks it agrees with getItem. -/
def getObj (om : ObjectMap) (key : String) : Obj :=
  (getItem om key).getD (Obj.mk "")

/-- Python repr of a list of strings, as f-string interpolation of
list(self.object_map.keys()) renders it (executor.py line 89). -/
def pyStrListRepr (xs : List String) : String :=
  "[" ++ String.intercalate ", " (xs.map (fun s => "\x27" ++ s ++ "\x27")) ++ "]"

/-- The exception produced by the unknown-target branch (executor.py
lines 88-91): on a dict, KeyError with the documented message; on the list
default, list(self.object_map.keys()) raises AttributeError before the
KeyError can be raised. -/
def lookupError (om : ObjectMap) (target_name : String) : ExecError :=
  match om with
  | ObjectMap.pydict m =>
      ExecError.keyError ("Object \x27" ++ target_name ++ "\x27 not found. Available objects: "
        ++ pyStrListRepr (m.map Prod.fst))
  | ObjectMap.pylist _ =>
      ExecError.attributeError "\x27list\x27 object has no attribute \x27keys\x27"

/-- Target validation and lookup (executor.py lines 86-93): membership test,
error branch, then indexing. -/
def lookupTarget (om : ObjectMap) (target_name : String) : Except ExecError Obj :=
  if memObjectMap target_name om then
    match getItem om target_name with
    | some target => Except.ok target
    | none => Except.error (ExecError.typeError "list indices must be integers or slices, not str")
  else Except.error (lookupError om target_name)

/-- self.object_map = response.json().get("objects", []) (executor.py
line 13): the list default is used when the response has no objects key. -/
def objectMapOfEnv (objects? : Option ObjectMap) : ObjectMap :=
  objects?.getD (ObjectMap.pylist [])

/-- _make_task_sequence (executor.py lines 16-25): nested loop appending each
task of each group to the sequence. -/
def make_task_sequence (task_outputs : List TaskGroup) : List Task :=
  task_outputs.foldl
    (fun task_sequence task_output =>
      task_output.tasks.foldl (fun seq task => seq ++ [task]) task_sequence)
    []

/-- The body of the execute loop for one task (executor.py lines 82-105):
validate the target, dispatch on the skill (posting one command), then build
the task result as a copy of the task with result set to Ok. -/
def execTask (om : ObjectMap) (url : String) (task : Task) (net : List Submission) :
    Except ExecError (TaskResult × List Submission) :=
  match lookupTarget om task.target with
  | Except.error e => Except.error e
  | Except.ok target =>
    match dispatchSkill url task.skill target net with
    | Except.error e => Except.error e
    | Except.ok net2 => Except.ok (TaskResult.mk task.skill task.target "Ok", net2)

/-- The execute loop (executor.py lines 81-105).  The first component is the
raised exception or the list of task results; the second component is the
network trace, which keeps the submissions already made even when a later
task raises. -/
def execLoop (om : ObjectMap) (url : String) :
    List Task → List Submission → Except ExecError (List TaskResult) × List Submission
  | [], net => (Except.ok [], net)
  | task :: rest, net =>
    match execTask om url task net with
    | Except.error e => (Except.error e, net)
    | Except.ok (r, net2) =>
      match execLoop om url rest net2 with
      | (Except.error e, net3) => (Except.error e, net3)
      | (Except.ok rs, net3) => (Except.ok (r :: rs), net3)

/-- TaskExecutor.execute (executor.py lines 76-108): flatten the groups,
then run the loop. -/
def execute (om : ObjectMap) (url : String) (task_outputs : List TaskGroup)
    (net : List Submission) : Except ExecError (List TaskResult) × List Submission :=
  execLoop om url (make_task_sequence task_outputs) net

/-- A task passing both validations of the loop body: target present in the
snapshot and skill among the three dispatched ones. -/
def supportedSkill (skill : String) : Bool :=
  skill == "GoToObject" || skill == "PickObject" || skill == "PlaceObject"

def taskOk (om : ObjectMap) (t : Task) : Bool :=
  memObjectMap t.target om && supportedSkill t.skill

/-- The exception raised by the loop body on the first failing task: the
target check (executor.py line 87) fires before the skill dispatch. -/
def firstTaskError (om : ObjectMap) (t : Task) : ExecError :=
  if memObjectMap t.target om then ExecError.valueError ("Unknown skill: " ++ t.skill)
  else lookupError om t.target

/-- The single submission a valid task performs. -/
def submissionFor (om : ObjectMap) (url : String) (t : Task) : Submission :=
  Submission.mk (url ++ "/send_action") (clientAction (taskCode t.skill (getObj om t.target).pos))

theorem foldl_append_singleton {α : Type} (l : List α) (acc : List α) :
    l.foldl (fun s x => s ++ [x]) acc = acc ++ l := by
  induction l generalizing acc with
  | nil => simp
  | cons x xs ih => simp [ih, List.append_assoc]

theorem foldl_concat_flatten {α β : Type} (f : β → List α) :
    ∀ (l : List β) (acc : List α),
      l.foldl (fun s b => s ++ f b) acc = acc ++ (l.map f).flatten := by
  intro l
  induction l with
  | nil => intro acc; simp
  | cons b bs ih => intro acc; simp [ih, List.append_assoc]

theorem make_task_sequence_eq (gs : List TaskGroup) :
    make_task_sequence gs = (gs.map TaskGroup.tasks).flatten := by
  have h : make_task_sequence gs = gs.foldl (fun seq g => seq ++ g.tasks) [] := by
    simp [make_task_sequence, foldl_append_singleton]
  rw [h]
  simpa using foldl_concat_flatten TaskGroup.tasks gs []

theorem getItem_of_mem (om : ObjectMap) (k : String) (h : memObjectMap k om = true) :
    ∃ o, getItem om k = some o := by
  cases om with
  | pydict m =>
    simp only [memObjectMap, List.any_eq_true] at h
    obtain ⟨x, hx, hxx⟩ := h
    have hsome : (m.find? (fun p => p.1 == k)).isSome = true := by
      rw [List.find?_isSome]
      exact ⟨x, hx, hxx⟩
    obtain ⟨y, hy⟩ := Option.isSome_iff_exists.mp hsome
    exact ⟨y.2, by simp [getItem, hy]⟩
  | pylist l => simp [memObjectMap] at h

theorem execTask_ok_of_taskOk (om : ObjectMap) (url : String) (t : Task)
    (net : List Submission) (h : taskOk om t = true) :
    execTask om url t net
      = Except.ok (TaskResult.mk t.skill t.target "Ok", net ++ [submissionFor om url t]) := by
  have hmem : memObjectMap t.target om = true := by
    simp only [taskOk, Bool.and_eq_true] at h; exact h.1
  have hsk : supportedSkill t.skill = true := by
    simp only [taskOk, Bool.and_eq_true] at h; exact h.2
  obtain ⟨o, ho⟩ := getItem_of_mem om t.target hmem
  have hobj : getObj om t.target = o := by simp [getObj, ho]
  have hlt : lookupTarget om t.target = Except.ok o := by simp [lookupTarget, hmem, ho]
  have hsk3 : (t.skill = "GoToObject" ∨ t.skill = "PickObject") ∨ t.skill = "PlaceObject" := by
    simpa [supportedSkill, Bool.or_eq_true, beq_iff_eq] using hsk
  rcases hsk3 with (h1 | h1) | h1 <;>
    simp [execTask, hlt, dispatchSkill, h1, go_to_object, pick_object, place_object,
      sendAction, submissionFor, taskCode, hobj]

theorem execTask_error_of_not_ok (om : ObjectMap) (url : String) (t : Task)
    (net : List Submission) (h : taskOk om t = false) :
    execTask om url t net = Except.error (firstTaskError om t) := by
  by_cases hmem : memObjectMap t.target om = true
  · have hsk : supportedSkill t.skill = false := by
      cases hs : supportedSkill t.skill
      · rfl
      · rw [taskOk, hmem, hs] at h; simp at h
    obtain ⟨o, ho⟩ := getItem_of_mem om t.target hmem
    have h3 : (¬t.skill = "GoToObject" ∧ ¬t.skill = "PickObject") ∧ ¬t.skill = "PlaceObject" := by
      simpa [supportedSkill, Bool.or_eq_false_iff, beq_eq_false_iff_ne] using hsk
    simp [execTask, lookupTarget, hmem, ho, dispatchSkill, firstTaskError, beq_iff_eq,
      h3.1.1, h3.1.2, h3.2]
  · have hmem' : memObjectMap t.target om = false := by simpa using hmem
    simp [execTask, lookupTarget, hmem', firstTaskError]

theorem execLoop_firstError (om : ObjectMap) (url : String) (pre : List Task) :
    ∀ (t : Task) (rest : List Task) (net : List Submission),
      (∀ p ∈ pre, taskOk om p = true) → taskOk om t = false →
      execLoop om url (pre ++ t :: rest) net
        = (Except.error (firstTaskError om t), net ++ pre.map (submissionFor om url)) := by
  induction pre with
  | nil =>
    intro t rest net _ hbad
    simp [execLoop, execTask_error_of_not_ok om url t net hbad]
  | cons p ps ih =>
    intro t rest net hpre hbad
    have hp : taskOk om p = true := hpre p (List.mem_cons_self p ps)
    have hps : ∀ q ∈ ps, taskOk om q = true := fun q hq => hpre q (List.mem_cons_of_mem p hq)
    have hrec := ih t rest (net ++ [submissionFor om url p]) hps hbad
    simp [List.cons_append, execLoop, execTask_ok_of_taskOk om url p net hp, hrec,
      List.append_assoc]

/-- C5: flatten (_make_task_sequence) returns exactly the concatenation of the
groups task lists in input order, with no sorting, deduplication or
reordering; in particular flattening two groups with tasks [A, B] and [C]
yields [A, B, C]. -/
theorem c5_flatten_preserves_order :
    (∀ gs : List TaskGroup, make_task_sequence gs = (gs.map TaskGroup.tasks).flatten)
    ∧ ∀ (sg1 sg2 : String) (A B C : Task),
        make_task_sequence [TaskGroup.mk sg1 [A, B], TaskGroup.mk sg2 [C]] = [A, B, C] := by
  refine ⟨make_task_sequence_eq, ?_⟩
  intro sg1 sg2 A B C
  simp [make_task_sequence_eq]

/-- C2 counterexample: a task list that contains a task with an absent target
(blue_mug is not in the snapshot) on which execute does not raise the
unknown-object KeyError: the unsupported skill of the earlier task raises
ValueError first, so the claim as universally stated is false. -/
theorem c2_counterexample :
    ((make_task_sequence [TaskGroup.mk "serve"
        [Task.mk "FlySkill" "red_cup", Task.mk "PickObject" "blue_mug"]]).any
      (fun t => !(memObjectMap t.target
        (ObjectMap.pydict [("red_cup", Obj.mk "[0, 0, 0]")])))) = true
    ∧ execute (ObjectMap.pydict [("red_cup", Obj.mk "[0, 0, 0]")]) "http://127.0.0.1:8800"
        [TaskGroup.mk "serve" [Task.mk "FlySkill" "red_cup", Task.mk "PickObject" "blue_mug"]] []
        = (Except.error (ExecError.valueError "Unknown skill: FlySkill"), [])
    ∧ ExecError.valueError "Unknown skill: FlySkill"
        ≠ ExecError.keyError
            "Object \x27blue_mug\x27 not found. Available objects: [\x27red_cup\x27]" := by
  exact ⟨by decide, by rfl, by decide⟩

/-- C2 (amended): for every task list containing a task with an absent
target, provided every task before that first failing task passes both
validations, execute raises KeyError with a message listing the missing
target and the available object names, and returns no list of results (the
error value carries no partial results). -/
theorem c2_unknown_object_error (m : List (String × Obj)) (url : String)
    (gs : List TaskGroup) (pre : List Task) (t : Task) (rest : List Task)
    (net : List Submission)
    (hseq : make_task_sequence gs = pre ++ t :: rest)
    (hpre : ∀ p ∈ pre, taskOk (ObjectMap.pydict m) p = true)
    (hmiss : memObjectMap t.target (ObjectMap.pydict m) = false) :
    execute (ObjectMap.pydict m) url gs net
      = (Except.error (ExecError.keyError
            ("Object \x27" ++ t.target ++ "\x27 not found. Available objects: "
              ++ pyStrListRepr (m.map Prod.fst))),
         net ++ pre.map (submissionFor (ObjectMap.pydict m) url)) := by
  have hbad : taskOk (ObjectMap.pydict m) t = false := by simp [taskOk, hmiss]
  have h := execLoop_firstError (ObjectMap.pydict m) url pre t rest net hpre hbad
  simp [execute, hseq, h, firstTaskError, hmiss, lookupError]

/-- C2 witness: the spec example, snapshot containing only red_cup and a
PickObject task targeting blue_mug. -/
theorem c2_witness :
    execute (ObjectMap.pydict [("red_cup", Obj.mk "[0, 0, 0]")]) "http://127.0.0.1:8800"
        [TaskGroup.mk "grasp" [Task.mk "PickObject" "blue_mug"]] []
      = (Except.error (ExecError.keyError
            ("Object \x27" ++ "blue_mug" ++ "\x27 not found. Available objects: "
              ++ pyStrListRepr (([("red_cup", Obj.mk "[0, 0, 0]")]).map Prod.fst))), []) :=
  c2_unknown_object_error [("red_cup", Obj.mk "[0, 0, 0]")] "http://127.0.0.1:8800"
    [TaskGroup.mk "grasp" [Task.mk "PickObject" "blue_mug"]] []
    (Task.mk "PickObject" "blue_mug") [] [] rfl
    (fun p hp => absurd hp (List.not_mem_nil p)) (by decide)

/-- C3 counterexample: execute raises a validation error (unknown object on
the second task) although one command submission has already been made to
the Inbound Boundary for the first task of the same call, so the claim that
no submission at all has been made is false. -/
theorem c3_counterexample :
    (execute (ObjectMap.pydict [("table", Obj.mk "[1, 2, 0]")]) "http://127.0.0.1:8800"
        [TaskGroup.mk "move" [Task.mk "GoToObject" "table", Task.mk "PickObject" "mug"]]
        []).2.length = 1
    ∧ (execute (ObjectMap.pydict [("table", Obj.mk "[1, 2, 0]")]) "http://127.0.0.1:8800"
        [TaskGroup.mk "move" [Task.mk "GoToObject" "table", Task.mk "PickObject" "mug"]]
        []).1
      = Except.error (ExecError.keyError
          "Object \x27mug\x27 not found. Available objects: [\x27table\x27]") := by
  exact ⟨by rfl, by rfl⟩

/-- C3 (amended): whenever execute raises a validation error, no submission
has been made for the offending task or for any later task; the network
trace at the moment the error is raised consists exactly of one submission
per earlier valid task (validation is interleaved per task, not performed
up front for the whole list). -/
theorem c3_validation_before_own_submission (om : ObjectMap) (url : String)
    (gs : List TaskGroup) (pre : List Task) (t : Task) (rest : List Task)
    (net : List Submission)
    (hseq : make_task_sequence gs = pre ++ t :: rest)
    (hpre : ∀ p ∈ pre, taskOk om p = true)
    (hbad : taskOk om t = false) :
    (execute om url gs net).1 = Except.error (firstTaskError om t)
    ∧ (execute om url gs net).2 = net ++ pre.map (submissionFor om url) := by
  have h := execLoop_firstError om url pre t rest net hpre hbad
  constructor <;> simp [execute, hseq, h]

/-- C3 witness: a valid GoToObject task followed by a task with a missing
target; the error is raised and the trace holds exactly the submission made
for the first task. -/
theorem c3_witness :
    (execute (ObjectMap.pydict [("table", Obj.mk "[1, 2, 0]")]) "http://127.0.0.1:8800"
        [TaskGroup.mk "move" [Task.mk "GoToObject" "table", Task.mk "PickObject" "mug"]]
        []).1
      = Except.error (firstTaskError (ObjectMap.pydict [("table", Obj.mk "[1, 2, 0]")])
          (Task.mk "PickObject" "mug"))
    ∧ (execute (ObjectMap.pydict [("table", Obj.mk "[1, 2, 0]")]) "http://127.0.0.1:8800"
        [TaskGroup.mk "move" [Task.mk "GoToObject" "table", Task.mk "PickObject" "mug"]]
        []).2
      = [] ++ [Task.mk "GoToObject" "table"].map
          (submissionFor (ObjectMap.pydict [("table", Obj.mk "[1, 2, 0]")])
            "http://127.0.0.1:8800") :=
  c3_validation_before_own_submission (ObjectMap.pydict [("table", Obj.mk "[1, 2, 0]")])
    "http://127.0.0.1:8800"
    [TaskGroup.mk "move" [Task.mk "GoToObject" "table", Task.mk "PickObject" "mug"]]
    [Task.mk "GoToObject" "table"] (Task.mk "PickObject" "mug") [] [] rfl
    (by decide) (by decide)

/-- C6: a validation failure aborts all remaining tasks: the outcome of
execute does not depend in any way on the tasks after the failing one (they
are never dispatched and produce neither submissions nor results), the
raised error is that of the failing task, and each task before the failure
contributed exactly one submission (no retry). -/
theorem c6_failure_aborts_rest (om : ObjectMap) (url : String)
    (gs gs2 : List TaskGroup) (pre : List Task) (t : Task) (rest rest2 : List Task)
    (net : List Submission)
    (hseq : make_task_sequence gs = pre ++ t :: rest)
    (hseq2 : make_task_sequence gs2 = pre ++ t :: rest2)
    (hpre : ∀ p ∈ pre, taskOk om p = true)
    (hbad : taskOk om t = false) :
    execute om url gs net = execute om url gs2 net
    ∧ execute om url gs net
        = (Except.error (firstTaskError om t), net ++ pre.map (submissionFor om url)) := by
  have h1 := execLoop_firstError om url pre t rest net hpre hbad
  have h2 := execLoop_firstError om url pre t rest2 net hpre hbad
  constructor
  · simp [execute, hseq, hseq2, h1, h2]
  · simp [execute, hseq, h1]

/-- C6 witness: a failing first task followed by a further task; the result
is the same as with no further task at all. -/
theorem c6_witness :
    execute (ObjectMap.pydict [("table", Obj.mk "[1, 2, 0]")]) "http://127.0.0.1:8800"
        [TaskGroup.mk "g" [Task.mk "FlySkill" "table", Task.mk "GoToObject" "table"]] []
      = execute (ObjectMap.pydict [("table", Obj.mk "[1, 2, 0]")]) "http://127.0.0.1:8800"
          [TaskGroup.mk "g" [Task.mk "FlySkill" "table"]] []
    ∧ execute (ObjectMap.pydict [("table", Obj.mk "[1, 2, 0]")]) "http://127.0.0.1:8800"
        [TaskGroup.mk "g" [Task.mk "FlySkill" "table", Task.mk "GoToObject" "table"]] []
      = (Except.error (firstTaskError (ObjectMap.pydict [("table", Obj.mk "[1, 2, 0]")])
            (Task.mk "FlySkill" "table")),
         [] ++ ([] : List Task).map
           (submissionFor (ObjectMap.pydict [("table", Obj.mk "[1, 2, 0]")])
             "http://127.0.0.1:8800")) :=
  c6_failure_aborts_rest (ObjectMap.pydict [("table", Obj.mk "[1, 2, 0]")])
    "http://127.0.0.1:8800"
    [TaskGroup.mk "g" [Task.mk "FlySkill" "table", Task.mk "GoToObject" "table"]]
    [TaskGroup.mk "g" [Task.mk "FlySkill" "table"]]
    [] (Task.mk "FlySkill" "table") [Task.mk "GoToObject" "table"] [] [] rfl rfl
    (fun p hp => absurd hp (List.not_mem_nil p)) (by decide)

/-- C9: when the environment response has no objects key, construction
succeeds with the object map defaulting to the empty Python list; the
membership test then treats every target as missing, and every execute call
on a non-empty task sequence raises AttributeError (list has no keys method)
instead of the documented KeyError, before any submission. -/
theorem c9_missing_objects_key (url : String) (gs : List TaskGroup)
    (t : Task) (rest : List Task) (net : List Submission)
    (hseq : make_task_sequence gs = t :: rest) :
    objectMapOfEnv none = ObjectMap.pylist []
    ∧ (∀ name : String, memObjectMap name (objectMapOfEnv none) = false)
    ∧ execute (objectMapOfEnv none) url gs net
        = (Except.error (ExecError.attributeError
            "\x27list\x27 object has no attribute \x27keys\x27"), net) := by
  refine ⟨rfl, fun name => rfl, ?_⟩
  have hbad : taskOk (objectMapOfEnv none) t = false := by
    simp [taskOk, memObjectMap, objectMapOfEnv]
  have h := execLoop_firstError (objectMapOfEnv none) url [] t rest net
    (fun p hp => absurd hp (List.not_mem_nil p)) hbad
  simp only [List.nil_append, List.map_nil, List.append_nil] at h
  rw [execute, hseq, h]
  simp [firstTaskError, memObjectMap, objectMapOfEnv, lookupError]

/-- C9 witness: a single PickObject task under the list-default object map. -/
theorem c9_witness :
    objectMapOfEnv none = ObjectMap.pylist []
    ∧ execute (objectMapOfEnv none) "http://127.0.0.1:8800"
        [TaskGroup.mk "grasp" [Task.mk "PickObject" "blue_mug"]] []
        = (Except.error (ExecError.attributeError
            "\x27list\x27 object has no attribute \x27keys\x27"), []) :=
  ⟨(c9_missing_objects_key "http://127.0.0.1:8800"
      [TaskGroup.mk "grasp" [Task.mk "PickObject" "blue_mug"]]
      (Task.mk "PickObject" "blue_mug") [] [] rfl).1,
   (c9_missing_objects_key "http://127.0.0.1:8800"
      [TaskGroup.mk "grasp" [Task.mk "PickObject" "blue_mug"]]
      (Task.mk "PickObject" "blue_mug") [] [] rfl).2.2⟩

/-- C4 counterexample: the per-skill command builder _go_to_object itself
performs a network submission (the trace grows by one POST), so the claim
that the translator never itself performs any network call and that the
submission is done separately by the Executor is false. -/
theorem c4_counterexample :
    go_to_object "http://127.0.0.1:8800" (Obj.mk "[1, 2, 0]") [] ≠ [] := by decide

/-- C4 (amended): each per-skill handler builds its command string as the
pure mapping taskCode of (skill, target position) and itself submits exactly
that one envelope to the send_action endpoint as its only network effect. -/
theorem c4_translator_pure_submit (url : String) (skill : String) (target : Obj)
    (net : List Submission)
    (h : skill = "GoToObject" ∨ skill = "PickObject" ∨ skill = "PlaceObject") :
    dispatchSkill url skill target net
      = Except.ok (net ++ [Submission.mk (url ++ "/send_action")
          (clientAction (taskCode skill target.pos))]) := by
  rcases h with h | h | h <;>
    simp [h, dispatchSkill, taskCode, go_to_object, pick_object, place_object, sendAction]

/-- C4 witness: the PickObject handler at a concrete position submits the
pick command built by the pure mapping. -/
theorem c4_witness :
    dispatchSkill "http://127.0.0.1:8800" "PickObject" (Obj.mk "[1, 2, 0]") []
      = Except.ok ([] ++ [Submission.mk ("http://127.0.0.1:8800" ++ "/send_action")
          (clientAction (taskCode "PickObject" "[1, 2, 0]"))]) :=
  c4_translator_pure_submit "http://127.0.0.1:8800" "PickObject" (Obj.mk "[1, 2, 0]") []
    (Or.inr (Or.inl rfl))

/-- The validation condition of receive_action (llm_main.py line 129):
presence of the action, type and payload keys; the value of the type key is
not inspected. -/
def hasActionKeys (action : ActionReq) : Bool :=
  match action.action? with
  | none => false
  | some inner => inner.type?.isSome && inner.payload?.isSome

/-- receive_action (llm_main.py lines 116-138): on a well-keyed envelope,
enqueue it and answer 200; otherwise answer 400 without touching the queue.
Returns the HTTP status code and the updated queue. -/
def receive_action (action : ActionReq) (q : List ActionReq) : Nat × List ActionReq :=
  if hasActionKeys action then (200, q ++ [action])
  else (400, q)

/-- Outcome of one iteration of the worker loop for one envelope. -/
inductive ExecOutcome where
  | ranOk : ExecOutcome
  | ranError : String → ExecOutcome
  | skippedUnknownType : ExecOutcome
  | droppedMalformed : String → ExecOutcome
deriving DecidableEq

/-- The body of the process_actions loop for one popped envelope
(llm_main.py lines 56-75), with exec_code the opaque effect of
code_repository.exec_code.  A missing action, type or payload key raises
KeyError, caught by the outer handler (lines 79-82); an execution error is
caught by the inner handler (lines 67-72); an action whose type is not
run_code is silently skipped.  In every case the loop body returns instead
of propagating, so the worker thread survives. -/
def loop_body (exec_code : Option String → Except String Unit)
    (envelope : ActionReq) : ExecOutcome :=
  match envelope.action? with
  | none => ExecOutcome.droppedMalformed "KeyError: action"
  | some action =>
    match action.type? with
    | none => ExecOutcome.droppedMalformed "KeyError: type"
    | some ty =>
      if ty == "run_code" then
        match action.payload? with
        | none => ExecOutcome.droppedMalformed "KeyError: payload"
        | some payload =>
          match exec_code payload.code? with
          | Except.ok _ => ExecOutcome.ranOk
          | Except.error e => ExecOutcome.ranError e
      else ExecOutcome.skippedUnknownType

/-- The worker draining the queue contents in order (the while True loop of
process_actions): since the loop body never propagates an exception, the
worker always proceeds to the next queued envelope. -/
def process_queue (exec_code : Option String → Except String Unit) :
    List ActionReq → List (ActionReq × ExecOutcome)
  | [] => []
  | envelope :: rest =>
    (envelope, loop_body exec_code envelope) :: process_queue exec_code rest

theorem process_queue_fst (exec_code : Option String → Except String Unit) :
    ∀ q : List ActionReq, (process_queue exec_code q).map Prod.fst = q := by
  intro q
  induction q with
  | nil => rfl
  | cons e rest ih => simp [process_queue, ih]

/-- C8 counterexample: an envelope whose action type is the unknown kind
dance, but which has all three keys, is acknowledged with status 200 and
enqueued by receive_action, not rejected: the endpoint never checks the
type value, so the claim is false. -/
theorem c8_counterexample :
    receive_action
        (ActionReq.mk (some (ActionInner.mk (some "dance") (some (Payload.mk none))))) []
      = (200, [ActionReq.mk (some (ActionInner.mk (some "dance") (some (Payload.mk none))))])
    ∧ (some "dance" : Option String) ≠ some "run_code" := by
  exact ⟨rfl, by decide⟩

/-- C8 (amended): envelopes missing any of the action, type or payload keys
are rejected with status 400 and never enqueued; every envelope having all
three keys, including one whose type is not run_code, is appended to the
queue and acknowledged synchronously with status 200; an enqueued envelope
with an unknown type is later skipped by the dispatch worker without being
executed. -/
theorem c8_keyed_envelopes_enqueued (action : ActionReq) (q : List ActionReq) :
    (hasActionKeys action = false → receive_action action q = (400, q))
    ∧ (hasActionKeys action = true → receive_action action q = (200, q ++ [action]))
    ∧ ∀ (exec_code : Option String → Except String Unit) (ty : String) (payload : Payload),
        ty ≠ "run_code" →
        loop_body exec_code (ActionReq.mk (some (ActionInner.mk (some ty) (some payload))))
          = ExecOutcome.skippedUnknownType := by
  refine ⟨fun h => ?_, fun h => ?_, fun exec_code ty payload h => ?_⟩
  · simp [receive_action, h]
  · simp [receive_action, h]
  · simp [loop_body, beq_iff_eq, h]

/-- C8 witness: the dance envelope is enqueued with status 200 at the
endpoint and skipped, unexecuted, by the worker. -/
theorem c8_witness :
    receive_action
        (ActionReq.mk (some (ActionInner.mk (some "dance") (some (Payload.mk none))))) []
      = (200, [] ++ [ActionReq.mk (some (ActionInner.mk (some "dance") (some (Payload.mk none))))])
    ∧ loop_body (fun _ => Except.ok ())
        (ActionReq.mk (some (ActionInner.mk (some "dance") (some (Payload.mk none)))))
      = ExecOutcome.skippedUnknownType :=
  ⟨(c8_keyed_envelopes_enqueued
      (ActionReq.mk (some (ActionInner.mk (some "dance") (some (Payload.mk none))))) []).2.1 rfl,
   (c8_keyed_envelopes_enqueued
      (ActionReq.mk (some (ActionInner.mk (some "dance") (some (Payload.mk none))))) []).2.2
      (fun _ => Except.ok ()) "dance" (Payload.mk none) (by decide)⟩

/-- C7: when executing the code of an envelope raises, the loop body returns the
caught error as an outcome (it cannot propagate: loop_body is total), the
worker does not re-enqueue the envelope (each queue element is processed
exactly once, in order) and proceeds to the next queued envelope. -/
theorem c7_worker_survives_errors (exec_code : Option String → Except String Unit)
    (envelope : ActionReq) (rest : List ActionReq) (msg : String)
    (hfail : loop_body exec_code envelope = ExecOutcome.ranError msg) :
    process_queue exec_code (envelope :: rest)
      = (envelope, ExecOutcome.ranError msg) :: process_queue exec_code rest
    ∧ (process_queue exec_code (envelope :: rest)).map Prod.fst = envelope :: rest := by
  constructor
  · simp [process_queue, hfail]
  · exact process_queue_fst exec_code (envelope :: rest)

/-- C7 witness: an exec oracle that always fails; the failing envelope is
processed once and the following envelope is still processed. -/
theorem c7_witness :
    process_queue (fun _ => Except.error "boom")
        [clientAction "bad()", clientAction "good()"]
      = (clientAction "bad()", ExecOutcome.ranError "boom")
          :: process_queue (fun _ => Except.error "boom") [clientAction "good()"]
    ∧ (process_queue (fun _ => Except.error "boom")
        [clientAction "bad()", clientAction "good()"]).map Prod.fst
      = [clientAction "bad()", clientAction "good()"] :=
  c7_worker_survives_errors (fun _ => Except.error "boom") (clientAction "bad()")
    [clientAction "good()"] "boom" rfl

/-- State of the action queue subsystem (llm_main.py): queue is the FIFO
actions_queue contents in arrival order, inFlight the envelopes currently
being executed by the dispatch worker, executed the finished envelopes in
completion order, arrived every envelope ever enqueued in arrival order. -/
structure SysState where
  queue : List ActionReq
  inFlight : List ActionReq
  executed : List ActionReq
  arrived : List ActionReq
deriving DecidableEq

/-- Transitions of the queue subsystem.  enqueue models actions_queue.put
from any producer thread (llm_main.py lines 130 and 191).  start models the
single worker thread popping the queue head (line 56): because main starts
exactly one worker thread (lines 522 and 525) and its loop body executes the
popped envelope synchronously before the next get, a pop can only happen
while no envelope is in flight.  finish models the loop body returning,
successfully or not. -/
inductive WorkerStep : SysState → SysState → Prop
  | enqueue (s : SysState) (e : ActionReq) :
      WorkerStep s (SysState.mk (s.queue ++ [e]) s.inFlight s.executed (s.arrived ++ [e]))
  | start (s : SysState) (e : ActionReq) (rest : List ActionReq)
      (hq : s.queue = e :: rest) (hidle : s.inFlight = []) :
      WorkerStep s (SysState.mk rest [e] s.executed s.arrived)
  | finish (s : SysState) (e : ActionReq) (hbusy : s.inFlight = [e]) :
      WorkerStep s (SysState.mk s.queue [] (s.executed ++ [e]) s.arrived)

/-- The process starts with an empty queue and an idle worker. -/
def initState : SysState := SysState.mk [] [] [] []

def Reachable (s : SysState) : Prop :=
  Relation.ReflTransGen WorkerStep initState s

/-- C1: in every reachable state at most one envelope is in flight (never
two concurrently), and the finished envelopes, the in-flight envelope and
the queued envelopes, concatenated, are exactly the arrival sequence: the
worker begins envelopes in strict queue arrival order with no reordering.
Moreover along every step the begun sequence (executed then in flight) only
grows by appending, so an envelope enqueued earlier begins executing
earlier. -/
theorem c1_single_flight_fifo :
    (∀ s : SysState, Reachable s →
      s.inFlight.length ≤ 1 ∧ s.executed ++ s.inFlight ++ s.queue = s.arrived)
    ∧ ∀ s t : SysState, WorkerStep s t →
        ∃ d, t.executed ++ t.inFlight = (s.executed ++ s.inFlight) ++ d := by
  constructor
  · intro s h
    induction h with
    | refl => simp [initState]
    | tail hsteps hstep ih =>
      obtain ⟨ih1, ih2⟩ := ih
      cases hstep with
      | enqueue e =>
        refine ⟨ih1, ?_⟩
        simp [← ih2, List.append_assoc]
      | start e rest hq hidle =>
        refine ⟨by simp, ?_⟩
        rw [hq, hidle] at ih2
        simpa using ih2
      | finish e hbusy =>
        refine ⟨by simp, ?_⟩
        rw [hbusy] at ih2
        simpa [List.append_assoc] using ih2
  · intro s t hstep
    cases hstep with
    | enqueue e => exact ⟨[], by simp⟩
    | start e rest hq hidle => exact ⟨[e], by simp [hidle]⟩
    | finish e hbusy => exact ⟨[], by simp [hbusy]⟩

/-- C1 witness: the state reached by enqueueing one envelope, starting and
finishing it satisfies the invariant. -/
theorem c1_witness :
    (SysState.mk [] [] [clientAction "c()"] [clientAction "c()"]).inFlight.length ≤ 1
    ∧ (SysState.mk [] [] [clientAction "c()"] [clientAction "c()"]).executed
        ++ (SysState.mk [] [] [clientAction "c()"] [clientAction "c()"]).inFlight
        ++ (SysState.mk [] [] [clientAction "c()"] [clientAction "c()"]).queue
      = (SysState.mk [] [] [clientAction "c()"] [clientAction "c()"]).arrived :=
  c1_single_flight_fifo.1 (SysState.mk [] [] [clientAction "c()"] [clientAction "c()"])
    (Relation.ReflTransGen.tail
      (Relation.ReflTransGen.tail
        (Relation.ReflTransGen.tail Relation.ReflTransGen.refl
          (WorkerStep.enqueue initState (clientAction "c()")))
        (WorkerStep.start (SysState.mk [clientAction "c()"] [] [] [clientAction "c()"])
          (clientAction "c()") [] rfl rfl))
      (WorkerStep.finish (SysState.mk [] [clientAction "c()"] [] [clientAction "c()"])
        (clientAction "c()") rfl))

/-- Values stored in a Python dict cell of the heap model: strings, or a
list of references to other dicts (the tasks value of a group dict). -/
inductive PyVal where
  | s : String → PyVal
  | addrs : List Nat → PyVal
deriving DecidableEq

/-- A Python dict: insertion-ordered key value entries. -/
structure PyDict where
  entries : List (String × PyVal)
deriving DecidableEq

/-- Python d[k] read (none when the key is absent). -/
def pyGet (d : PyDict) (k : String) : Option PyVal :=
  (d.entries.find? (fun p => p.1 == k)).map Prod.snd

/-- Python d[k] = v on a copy: overwrite in place when the key exists,
append otherwise (insertion order semantics of dict assignment). -/
def pySet (d : PyDict) (k : String) (v : PyVal) : PyDict :=
  if (d.entries.find? (fun p => p.1 == k)).isSome then
    PyDict.mk (d.entries.map (fun p => if p.1 == k then (p.1, v) else p))
  else PyDict.mk (d.entries ++ [(k, v)])

/-- The heap: dicts addressed by index; allocation appends at the end, so
pre-existing addresses are never rewritten unless assigned through. -/
abbrev Store := List PyDict

/-- Dereference an address (out of range yields an empty dict, which then
fails every key read). -/
def readD (σ : Store) (a : Nat) : PyDict :=
  σ.getD a (PyDict.mk [])

/-- Heap-level _make_task_sequence: each group dict is read (subgoal then
tasks, executor.py lines 20-21) and the task references are concatenated;
the store is never written. -/
def flattenH (σ : Store) : List Nat → Except ExecError (List Nat)
  | [] => Except.ok []
  | g :: gs =>
    match pyGet (readD σ g) "subgoal" with
    | none => Except.error (ExecError.keyError "subgoal")
    | some _ =>
      match pyGet (readD σ g) "tasks" with
      | none => Except.error (ExecError.keyError "tasks")
      | some (PyVal.s _) => Except.error (ExecError.typeError "tasks is not a list")
      | some (PyVal.addrs ts) =>
        match flattenH σ gs with
        | Except.error e => Except.error e
        | Except.ok restTs => Except.ok (ts ++ restTs)

/-- Heap-level loop body for one task reference (executor.py lines 82-105):
read the task dict, validate, dispatch, then allocate task.copy() with the
result key set to Ok as a fresh dict, returning its address. -/
def execTaskH (om : ObjectMap) (url : String) (a : Nat) (σ : Store)
    (net : List Submission) : Except ExecError (Nat × Store × List Submission) :=
  match pyGet (readD σ a) "target" with
  | none => Except.error (ExecError.keyError "target")
  | some (PyVal.addrs _) => Except.error (ExecError.typeError "unhashable type: \x27list\x27")
  | some (PyVal.s target_name) =>
    match lookupTarget om target_name with
    | Except.error e => Except.error e
    | Except.ok target =>
      match pyGet (readD σ a) "skill" with
      | none => Except.error (ExecError.keyError "skill")
      | some (PyVal.addrs _) => Except.error (ExecError.valueError "Unknown skill: <list>")
      | some (PyVal.s skill) =>
        match dispatchSkill url skill target net with
        | Except.error e => Except.error e
        | Except.ok net2 =>
            Except.ok (σ.length, σ ++ [pySet (readD σ a) "result" (PyVal.s "Ok")], net2)

/-- Heap-level execute loop: result addresses are collected in task order. -/
def execLoopH (om : ObjectMap) (url : String) :
    List Nat → Store → List Submission →
      Except ExecError (List Nat) × Store × List Submission
  | [], σ, net => (Except.ok [], σ, net)
  | a :: rest, σ, net =>
    match execTaskH om url a σ net with
    | Except.error e => (Except.error e, σ, net)
    | Except.ok (r, σ2, net2) =>
      match execLoopH om url rest σ2 net2 with
      | (Except.error e, σ3, net3) => (Except.error e, σ3, net3)
      | (Except.ok rs, σ3, net3) => (Except.ok (r :: rs), σ3, net3)

/-- Heap-level TaskExecutor.execute over group dict references. -/
def executeH (om : ObjectMap) (url : String) (groups : List Nat) (σ : Store)
    (net : List Submission) : Except ExecError (List Nat) × Store × List Submission :=
  match flattenH σ groups with
  | Except.error e => (Except.error e, σ, net)
  | Except.ok ts => execLoopH om url ts σ net

theorem readD_append_left (σ ext : Store) (a : Nat) (h : a < σ.length) :
    readD (σ ++ ext) a = readD σ a := by
  simp [readD, List.getD_eq_getElem?_getD, List.getElem?_append_left h]

theorem execTaskH_ok (om : ObjectMap) (url : String) (a : Nat) (σ : Store)
    (net : List Submission) (r : Nat) (σ2 : Store) (net2 : List Submission)
    (h : execTaskH om url a σ net = Except.ok (r, σ2, net2)) :
    r = σ.length ∧ σ2 = σ ++ [pySet (readD σ a) "result" (PyVal.s "Ok")] := by
  unfold execTaskH at h
  repeat' split at h
  all_goals simp_all

theorem execLoopH_ok (om : ObjectMap) (url : String) :
    ∀ (ts : List Nat) (σ : Store) (net : List Submission) (res : List Nat)
      (σ2 : Store) (net2 : List Submission),
      execLoopH om url ts σ net = (Except.ok res, σ2, net2) →
      (∀ t ∈ ts, t < σ.length) →
      res = List.range' σ.length ts.length
      ∧ ∃ ds : List PyDict, σ2 = σ ++ ds ∧ ds.length = ts.length
          ∧ ∀ (j t : Nat), ts[j]? = some t →
              ds[j]? = some (pySet (readD σ t) "result" (PyVal.s "Ok")) := by
  intro ts
  induction ts with
  | nil =>
    intro σ net res σ2 net2 h hvalid
    have h' : ((Except.ok [] : Except ExecError (List Nat)), σ, net)
        = (Except.ok res, σ2, net2) := by simpa [execLoopH] using h
    cases h'
    refine ⟨rfl, [], by simp, rfl, ?_⟩
    intro j t hjt
    simp at hjt
  | cons a rest ih =>
    intro σ net res σ2 net2 h hvalid
    rw [execLoopH] at h
    cases htask : execTaskH om url a σ net with
    | error e => rw [htask] at h; simp at h
    | ok v =>
      obtain ⟨r, σB, netB⟩ := v
      rw [htask] at h
      obtain ⟨hr, hσB⟩ := execTaskH_ok om url a σ net r σB netB htask
      have h2 : (match execLoopH om url rest σB netB with
          | (Except.error e, σ3, net3) => ((Except.error e : Except ExecError (List Nat)), σ3, net3)
          | (Except.ok rs, σ3, net3) => (Except.ok (r :: rs), σ3, net3))
          = (Except.ok res, σ2, net2) := h
      rcases hE : execLoopH om url rest σB netB with ⟨exc, σC, netC⟩
      rw [hE] at h2
      cases exc with
      | error e => simp at h2
      | ok rs =>
        have h' : ((Except.ok (r :: rs) : Except ExecError (List Nat)), σC, netC)
            = (Except.ok res, σ2, net2) := by simpa using h2
        cases h'
        have hσBlen : σB.length = σ.length + 1 := by simp [hσB]
        have hvalid' : ∀ t ∈ rest, t < σB.length := by
          intro t ht
          exact lt_of_lt_of_le (hvalid t (List.mem_cons_of_mem a ht)) (by omega)
        obtain ⟨hrs, ds', hσC, hlen', hcontent'⟩ :=
          ih σB netB rs _ _ hE hvalid'
        have ha : a < σ.length := hvalid a (List.mem_cons_self a rest)
        refine ⟨?_, pySet (readD σ a) "result" (PyVal.s "Ok") :: ds', ?_, by simp [hlen'], ?_⟩
        · rw [hr, hrs, hσBlen]
          simp [List.range'_succ]
        · rw [hσC, hσB]
          simp
        · intro j t hjt
          cases j with
          | zero =>
            simp at hjt
            simp [hjt]
          | succ j =>
            simp only [List.getElem?_cons_succ] at hjt ⊢
            have ht : t ∈ rest := List.getElem?_mem hjt
            have := hcontent' j t hjt
            rwa [hσB, readD_append_left σ _ t (hvalid t (List.mem_cons_of_mem a ht))] at this

/-- C10: on a successful call, heap-level execute mutates no pre-existing
dict (every address of the initial store, group dicts and task dicts alike,
still holds its original value), returns exactly one result per flattened
task, and each result is a fresh dict (address at or past the initial store
bound, all distinct) holding the corresponding task dict with the result
key set to Ok, in the same order as the tasks executed. -/
theorem c10_execute_no_mutation_fresh_results (om : ObjectMap) (url : String)
    (groups : List Nat) (σ : Store) (net : List Submission) (ts res : List Nat)
    (σ2 : Store) (net2 : List Submission)
    (hf : flattenH σ groups = Except.ok ts)
    (hvalid : ∀ t ∈ ts, t < σ.length)
    (h : executeH om url groups σ net = (Except.ok res, σ2, net2)) :
    (∀ i : Nat, i < σ.length → σ2[i]? = σ[i]?)
    ∧ res.length = ts.length
    ∧ (∀ r ∈ res, σ.length ≤ r)
    ∧ res.Nodup
    ∧ ∀ (j t : Nat), ts[j]? = some t →
        res[j]? = some (σ.length + j)
        ∧ σ2[σ.length + j]? = some (pySet (readD σ t) "result" (PyVal.s "Ok")) := by
  rw [executeH, hf] at h
  obtain ⟨hres, ds, hσ2, hlen, hcontent⟩ :=
    execLoopH_ok om url ts σ net res σ2 net2 h hvalid
  refine ⟨?_, ?_, ?_, ?_, ?_⟩
  · intro i hi
    rw [hσ2]
    exact List.getElem?_append_left hi
  · simp [hres, List.length_range']
  · intro r hr
    rw [hres] at hr
    exact (List.mem_range'_1.mp hr).1
  · rw [hres]
    exact List.nodup_range' _ _
  · intro j t hjt
    have hjlt : j < ts.length := by
      cases Nat.lt_or_ge j ts.length with
      | inl hlt => exact hlt
      | inr hge => rw [List.getElem?_eq_none hge] at hjt; cases hjt
    constructor
    · rw [hres]
      simpa using List.getElem?_range' σ.length 1 hjlt
    · rw [hσ2, List.getElem?_append_right (by omega)]
      have := hcontent j t hjt
      simpa [Nat.add_sub_cancel_left] using this

/-- A group dict over the store, referencing the task dict at address 1. -/
def g0 : PyDict := PyDict.mk [("subgoal", PyVal.s "move"), ("tasks", PyVal.addrs [1])]

/-- A task dict for a GoToObject task targeting table. -/
def t0 : PyDict := PyDict.mk [("skill", PyVal.s "GoToObject"), ("target", PyVal.s "table")]

/-- C10 witness: one group with one GoToObject task; the single result is a
fresh copy of the task dict at the next free address. -/
theorem c10_witness :
    ([2] : List Nat)[0]? = some (([g0, t0] : Store).length + 0)
    ∧ ([g0, t0, pySet (readD [g0, t0] 1) "result" (PyVal.s "Ok")]
        : Store)[([g0, t0] : Store).length + 0]?
      = some (pySet (readD [g0, t0] 1) "result" (PyVal.s "Ok")) := by
  have h := (c10_execute_no_mutation_fresh_results
    (ObjectMap.pydict [("table", Obj.mk "[1, 2, 0]")]) "http://127.0.0.1:8800"
    [0] [g0, t0] [] [1] [2]
    [g0, t0, pySet (readD [g0, t0] 1) "result" (PyVal.s "Ok")]
    [Submission.mk ("http://127.0.0.1:8800" ++ "/send_action")
      (clientAction (go_to_code "[1, 2, 0]"))]
    rfl (by decide) rfl).2.2.2.2 0 1 rfl
  exact ⟨h.1, h.2⟩

end WithRobot
